import Mathlib

/-
Shallow embedding of the oci-bot repository (src/oci_bot/config.py,
src/oci_bot/agent.py, src/oci_bot/bot.py).

The program is a Streamlit chat front-end.  Its state lives in
`st.session_state` under two keys:
  * "messages"      — the rendered conversation history (bot.py),
  * "chat_messages" — the StreamlitChatMessageHistory used as LangChain
                      memory by the agent (agent.py line 38).
Both are modelled as fields of `SessionState`; the "messages" field is an
`Option` so that the key-absent state of a fresh session is representable
(bot.py line 25 tests `"messages" not in st.session_state`).

External collaborators (the YAML loader, the ChatOCIGenAI client, the
LangChain LLMChain/ConversationBufferMemory pair and Streamlit's
`st.write_stream`) are modelled by their documented behaviour at the
call sites the source uses:
  * the remote model call is an oracle `Except Unit String` — either the
    answer text or a remote-service failure;
  * `st.write_stream` consumes a fragment stream in order and returns the
    concatenation of the fragments, or propagates the stream's exception;
  * `LLMChain.invoke` with a `ConversationBufferMemory` backed by the
    "chat_messages" history formats the prompt template (failing if a
    template placeholder is not bound by the chain inputs), calls the
    model, and on success saves the (question, answer) pair into that
    history as a human/ai message pair.
-/

/-- Error taxonomy of the spec: configuration failures (missing/malformed
config file, unbound template placeholder) versus remote-service failures. -/
inductive Err where
  | configurationError
  | remoteServiceError
deriving DecidableEq, Repr

/-- Message of the conversation history: `{"role": ..., "content": ...}`
dictionaries appended in bot.py lines 39 and 46. -/
structure Message where
  role : String
  content : String
deriving DecidableEq, Repr

namespace Config

/-- Config.PROMPT_TEMPLATE_2 (config.py lines 12-15), the template actually
used by `generate_response`; written with the source's exact whitespace. -/
def PROMPT_TEMPLATE_2 : String :=
  "\n        Answer the question:\n            Question: {question}\n    "

/-- Config.deployment_env (config.py line 18): the value of the environment
variable IB_DEPLOYMENT_ENV when set (`some e`), else the literal "dev". -/
def deployment_env (ibDeploymentEnv : Option String) : String :=
  match ibDeploymentEnv with
  | some e => e
  | none => "dev"

/-- Config.CONFIG_FILE (config.py line 19):
f"config/app_config.\x7bdeployment_env\x7d.yml". -/
def CONFIG_FILE (ibDeploymentEnv : Option String) : String :=
  "config/app_config." ++ deployment_env ibDeploymentEnv ++ ".yml"

/-- Config.ROLE_USER (config.py line 22). -/
def ROLE_USER : String := "user"

/-- Config.ROLE_ASSISTANT (config.py line 23). -/
def ROLE_ASSISTANT : String := "assistant"

end Config

/-- Scanner state machine extracting the `\x7bname\x7d` placeholders of a
template string in order, modelling the placeholder set that
`PromptTemplate.from_template` derives from an f-string-style template
(agent.py line 48).  `acc = some cs` means we are inside an open brace with
`cs` the (reversed) characters read so far. -/
def scanPlaceholders : List Char → Option (List Char) → List String
  | [], _ => []
  | c :: rest, none =>
      if c = '{' then scanPlaceholders rest (some [])
      else scanPlaceholders rest none
  | c :: rest, some acc =>
      if c = '}' then String.mk acc.reverse :: scanPlaceholders rest none
      else scanPlaceholders rest (some (c :: acc))

/-- Placeholders referenced by a prompt template, in order of appearance. -/
def placeholders (template : String) : List String :=
  scanPlaceholders template.data none

/-- OCI section of the YAML configuration file, restricted to the three keys
the program reads (agent.py lines 33-35): AI.INFERENCE_MODEL,
AI.SERVICE_ENDPOINT and COMPARTMENT_OCID. -/
structure ConfigData where
  inference_model : String
  service_endpoint : String
  compartment_ocid : String
deriving DecidableEq, Repr

/-- Parameters the program passes when constructing the ChatOCIGenAI model
client (agent.py lines 32-37).  The float literal 0.7 of the source is
modelled exactly as the rational 7/10. -/
structure ChatOCIGenAI where
  model_id : String
  service_endpoint : String
  compartment_id : String
  temperature : ℚ
  max_tokens : ℕ
deriving DecidableEq, Repr

/-- OCIAgent instance state after __init__: the parsed config, the
constructed model client, and the key of the StreamlitChatMessageHistory
(agent.py lines 28-38). -/
structure OCIAgent where
  config : ConfigData
  llm : ChatOCIGenAI
  historyKey : String
deriving DecidableEq, Repr

/-- OCIAgent.__init__ (agent.py lines 28-38).  `configFile` is the outcome of
opening and parsing Config.CONFIG_FILE: `none` when the file is absent or
malformed (the `open`/`yaml.safe_load`/key lookup raises and the exception
propagates — a ConfigurationError in the spec's taxonomy), `some cfg` when it
yields the OCI section.  On success the ChatOCIGenAI client is built with the
three config values and the literal model_kwargs
\x7b"temperature": 0.7, "max_tokens": 400\x7d, and the agent's history is the
StreamlitChatMessageHistory under key "chat_messages". -/
def OCIAgent.init (configFile : Option ConfigData) : Except Err OCIAgent :=
  match configFile with
  | none => .error .configurationError
  | some cfg =>
      .ok { config := cfg
            llm := { model_id := cfg.inference_model
                     service_endpoint := cfg.service_endpoint
                     compartment_id := cfg.compartment_ocid
                     temperature := 7/10
                     max_tokens := 400 }
            historyKey := "chat_messages" }

/-- Streamlit session_state restricted to the two keys the program uses.
`messages` is `none` while the "messages" key is absent; "chat_messages" is
the message list behind StreamlitChatMessageHistory (created empty on first
use by the library, so a plain list suffices). -/
structure SessionState where
  messages : Option (List Message)
  chat_messages : List Message
deriving DecidableEq, Repr

/-- Session.__load_history (bot.py lines 20-31): if the "messages" key is
absent, set it to the empty list; then re-render every stored message
(rendering does not change the state). -/
def loadHistory (st : SessionState) : SessionState :=
  match st.messages with
  | none => { st with messages := some [] }
  | some _ => st

/-- Input keys available to the prompt at chain.invoke time (agent.py lines
47-61): the "question" binding passed to invoke, plus the "history" memory
variable contributed by ConversationBufferMemory. -/
def chainInputKeys : List String := ["question", "history"]

/-- LLMChain.invoke as used in generate_response (agent.py lines 47-61),
modelled from the library's documented behaviour: format the prompt template
(a ConfigurationError if some placeholder of the template is not bound by
the chain's input keys), call the model (`oracle`: the remote answer text,
or a remote-service failure which propagates without saving anything), and
on success save the (question, answer) pair into the memory's chat history
as a human message followed by an ai message, returning the "text" field. -/
def chainInvoke (oracle : Except Unit String) (question : String)
    (chat : List Message) : Except Err (String × List Message) :=
  if (placeholders Config.PROMPT_TEMPLATE_2).all (fun p => chainInputKeys.contains p) then
    match oracle with
    | .error _ => .error .remoteServiceError
    | .ok text =>
        .ok (text, chat ++ [⟨"human", question⟩, ⟨"ai", text⟩])
  else .error .configurationError

/-- OCIAgent.generate_response (agent.py lines 41-62): a generator that, when
first pulled, invokes the chain on \x7b"question": user_input\x7d and yields the
single fragment `llm_response["text"]`.  The value is the fragment list the
generator emits plus the session state after the chain's memory save;
a chain failure propagates out of the generator. -/
def OCIAgent.generate_response (_a : OCIAgent) (oracle : Except Unit String)
    (user_input : String) (st : SessionState) :
    Except Err (List String × SessionState) :=
  match chainInvoke oracle user_input st.chat_messages with
  | .error e => .error e
  | .ok (text, chat2) => .ok ([text], { st with chat_messages := chat2 })

/-- Fragment stream as consumed by st.write_stream: the fragments it emits in
order, and whether it raises (a RemoteServiceError) after the last one. -/
structure FragStream where
  frags : List String
  fails : Bool
deriving DecidableEq, Repr

/-- Concatenation of a list of string fragments in arrival order. -/
def joinFrags (frags : List String) : String :=
  match frags with
  | [] => ""
  | f :: rest => f ++ joinFrags rest

/-- Streamlit st.write_stream (bot.py line 45): consumes the stream, writing
each fragment as it arrives, and returns the concatenation of the string
fragments; if the stream raises, the exception propagates and nothing is
returned (the fragments already written remain rendered on screen only). -/
def writeStream (s : FragStream) : Except Err String :=
  if s.fails then .error .remoteServiceError else .ok (joinFrags s.frags)

/-- Body of the `if user_input := st.chat_input(...)` branch of Session.start
(bot.py lines 38-46), over the "messages" list: append the user message,
render it, then st.write_stream the agent's fragment stream and append the
assistant message holding the returned concatenation.  If the stream raises,
the exception propagates before the assistant append runs: the result is the
history with only the user message appended, paired with the error. -/
def handleInput (stream : FragStream) (user_input : String)
    (messages : List Message) : List Message × Option Err :=
  let m1 := messages ++ [⟨Config.ROLE_USER, user_input⟩]
  match writeStream stream with
  | .error e => (m1, some e)
  | .ok response => (m1 ++ [⟨Config.ROLE_ASSISTANT, response⟩], none)

/-- Session over its constructed agent (bot.py lines 13-18). -/
structure Session where
  agent : OCIAgent
deriving DecidableEq, Repr

/-- Session.__init__ (bot.py lines 14-18): render the title, load the
history, then construct the OCIAgent; if the agent's config read fails the
exception propagates and no session (hence no agent, no model client) is
produced. -/
def Session.init (configFile : Option ConfigData) (st : SessionState) :
    Except Err (Session × SessionState) :=
  let st1 := loadHistory st
  match OCIAgent.init configFile with
  | .error e => .error e
  | .ok a => .ok (⟨a⟩, st1)

/-- Run of one session over a list of inputs, each with the fragment list its
remote call streams back (every call succeeding): each input is handled by
the Session.start body in turn. -/
def runSession (inputs : List (String × List String))
    (messages : List Message) : List Message :=
  match inputs with
  | [] => messages
  | (t, fs) :: rest => runSession rest (handleInput ⟨fs, false⟩ t messages).1

/-- History the spec promises for a run: per input, a user message holding
the submitted text then an assistant message holding the concatenation of
the fragments returned for that input. -/
def expectedHistory : List (String × List String) → List Message
  | [] => []
  | (t, fs) :: rest =>
      ⟨Config.ROLE_USER, t⟩ :: ⟨Config.ROLE_ASSISTANT, joinFrags fs⟩ :: expectedHistory rest

/-- Test for a history of even length strictly alternating
user, assistant, user, assistant, ... -/
def alternates : List Message → Bool
  | [] => true
  | [_] => false
  | m1 :: m2 :: rest =>
      m1.role == Config.ROLE_USER && m2.role == Config.ROLE_ASSISTANT && alternates rest

/-- Test for the one error branch the spec's C9 concerns: whether a
generate_response outcome is the unbound-placeholder / missing-config
ConfigurationError. -/
def isConfigurationErrorOutcome : Except Err (List String × SessionState) → Bool
  | .error .configurationError => true
  | _ => false

lemma runSession_eq (inputs : List (String × List String)) (ms : List Message) :
    runSession inputs ms = ms ++ expectedHistory inputs := by
  induction inputs generalizing ms with
  | nil => simp [runSession, expectedHistory]
  | cons p rest ih =>
      obtain ⟨t, fs⟩ := p
      simp [runSession, expectedHistory, handleInput, writeStream, ih]

lemma expectedHistory_length (inputs : List (String × List String)) :
    (expectedHistory inputs).length = 2 * inputs.length := by
  induction inputs with
  | nil => rfl
  | cons p rest ih =>
      obtain ⟨t, fs⟩ := p
      simp [expectedHistory, ih]
      ring

lemma alternates_expectedHistory (inputs : List (String × List String)) :
    alternates (expectedHistory inputs) = true := by
  induction inputs with
  | nil => rfl
  | cons p rest ih =>
      obtain ⟨t, fs⟩ := p
      simp [expectedHistory, alternates, Config.ROLE_USER, Config.ROLE_ASSISTANT, ih]

/-- C1: for every sequence of N non-empty user inputs handled in one session
with each remote call succeeding, the resulting ConversationHistory is
exactly, per input, a user Message holding the submitted text followed by an
assistant Message holding the concatenation of the fragments returned for
that input — hence exactly 2N Messages alternating user, assistant, ... -/
theorem runSession_alternating_pairs (inputs : List (String × List String))
    (_h : ∀ p ∈ inputs, p.1 ≠ "") :
    runSession inputs [] = expectedHistory inputs ∧
    (runSession inputs []).length = 2 * inputs.length ∧
    alternates (runSession inputs []) = true := by
  have e := runSession_eq inputs []
  simp only [List.nil_append] at e
  exact ⟨e, by rw [e, expectedHistory_length], by rw [e, alternates_expectedHistory]⟩

/-- Witness for C1 at the concrete two-input session
[("hello", ["Hi ", "there"]), ("again", ["ok"])]. -/
theorem runSession_alternating_pairs_witness :
    (∀ p ∈ [("hello", ["Hi ", "there"]), ("again", ["ok"])],
        Prod.fst p ≠ "") ∧
    runSession [("hello", ["Hi ", "there"]), ("again", ["ok"])] [] =
      expectedHistory [("hello", ["Hi ", "there"]), ("again", ["ok"])] ∧
    (runSession [("hello", ["Hi ", "there"]), ("again", ["ok"])] []).length = 2 * 2 :=
  ⟨by decide,
   (runSession_alternating_pairs _ (by decide)).1,
   (runSession_alternating_pairs _ (by decide)).2.1⟩

/-- C2 counterexample: when the stream raises after emitting
["Inci", "dent management "], the Session.start body leaves the history with
only the user message — the assistant Message "Incident management " claimed
by the spec is NOT appended (the append on bot.py line 46 runs only after
st.write_stream returns) — while the RemoteServiceError does propagate. -/
theorem handleInput_midstream_failure_cex :
    handleInput ⟨["Inci", "dent management "], true⟩ "What is an incident?" [] =
      ([⟨Config.ROLE_USER, "What is an incident?"⟩], some Err.remoteServiceError) ∧
    (handleInput ⟨["Inci", "dent management "], true⟩ "What is an incident?" []).1.contains
      ⟨Config.ROLE_ASSISTANT, "Incident management "⟩ = false := by
  constructor <;> rfl

/-- C2 (amended): if the Responder's fragment sequence raises after emitting
some fragments, the exception propagates out of st.write_stream before the
assistant append runs, so NO assistant Message is appended: the history
gains exactly the user Message (the partial concatenation is only rendered
on screen, never stored), and the RemoteServiceError reaches the caller. -/
theorem handleInput_midstream_failure (frags : List String) (input : String)
    (ms : List Message) :
    handleInput ⟨frags, true⟩ input ms =
      (ms ++ [⟨Config.ROLE_USER, input⟩], some Err.remoteServiceError) := by
  rfl

/-- C3: when the remote model call succeeds, the lazy sequence returned by
OCIAgent.generate_response has length exactly one and its sole element is
the chain result's "text" field (the model's entire answer). -/
theorem generate_response_single_fragment (a : OCIAgent) (text user_input : String)
    (st : SessionState) :
    (a.generate_response (.ok text) user_input st).map (fun r => r.1) =
      .ok [text] ∧
    (a.generate_response (.ok text) user_input st).map (fun r => r.1.length) =
      .ok 1 := by
  constructor <;> rfl

/-- C4 counterexample: two different configuration contents yield model
clients with the identical temperature 7/10 and max_tokens 400 — these are
the literal model_kwargs of agent.py line 36, not values read from the
configuration source (which carries no temperature or max_tokens at all). -/
theorem model_kwargs_constants_cex :
    (OCIAgent.init (some ⟨"model-A", "endpoint-A", "ocid-A"⟩)).map
        (fun a => (a.llm.temperature, a.llm.max_tokens)) = .ok (7/10, 400) ∧
    (OCIAgent.init (some ⟨"model-B", "endpoint-B", "ocid-B"⟩)).map
        (fun a => (a.llm.temperature, a.llm.max_tokens)) = .ok (7/10, 400) := by
  constructor <;> rfl

/-- C4 (amended): the three identity fields inferenceModelId,
serviceEndpoint and compartmentId are loaded once at agent construction from
the configuration source and the agent is never mutated afterwards, but the
temperature and maxTokens passed to the model client are the fixed program
constants 0.7 and 400, not configuration values. -/
theorem agent_init_config_fields (cfg : ConfigData) :
    OCIAgent.init (some cfg) =
      .ok ⟨cfg, ⟨cfg.inference_model, cfg.service_endpoint, cfg.compartment_ocid,
        7/10, 400⟩, "chat_messages"⟩ := by
  rfl

/-- C5: if the configuration file is absent or malformed, both the agent
construction and the whole session construction fail with the
ConfigurationError, which propagates unrecovered — no OCIAgent (hence no
model client) is ever produced for that session. -/
theorem session_init_config_failure (st : SessionState) :
    Session.init none st = .error Err.configurationError ∧
    OCIAgent.init (none : Option ConfigData) = .error Err.configurationError := by
  constructor <;> rfl

/-- C6: loading the history a second time on a session state whose
"messages" key already exists changes nothing, so the stored Message list
after two runs of the history-loading step equals the list after one run. -/
theorem loadHistory_idempotent (st : SessionState) :
    loadHistory (loadHistory st) = loadHistory st := by
  obtain ⟨ms, cm⟩ := st
  cases ms <;> rfl

/-- C7: ConversationHistory is append-only — the history-loading step, the
Session.start input-handling body (in both its success and its failure
outcome), and any further run of successful inputs all keep the previous
Message list as a prefix, unchanged. -/
theorem history_append_only :
    (∀ st : SessionState,
        (st.messages.getD []) <+: ((loadHistory st).messages.getD [])) ∧
    (∀ (stream : FragStream) (user_input : String) (ms : List Message),
        ms <+: (handleInput stream user_input ms).1) ∧
    (∀ (inputs : List (String × List String)) (ms : List Message),
        ms <+: runSession inputs ms) := by
  refine ⟨?_, ?_, ?_⟩
  · intro st
    obtain ⟨ms, cm⟩ := st
    cases ms <;> simp [loadHistory]
  · intro stream user_input ms
    obtain ⟨fs, fail⟩ := stream
    cases fail <;>
      simp [handleInput, writeStream, List.append_assoc, List.prefix_append]
  · intro inputs ms
    rw [runSession_eq]
    exact List.prefix_append ms (expectedHistory inputs)

/-- C8: the configuration file path is "config/app_config.<env>.yml" with
<env> the value of IB_DEPLOYMENT_ENV when that variable is set, and the
literal "dev" when it is unset. -/
theorem config_file_path (e : String) :
    Config.CONFIG_FILE (some e) = "config/app_config." ++ e ++ ".yml" ∧
    Config.CONFIG_FILE none = "config/app_config.dev.yml" := by
  constructor <;> rfl

/-- C9: the default template's only placeholder is question, and the chain
inputs of generate_response bind it for every input, so the template is
always fully bound and the unbound-placeholder ConfigurationError branch is
unreachable: no outcome of generate_response is a ConfigurationError. -/
theorem template_fully_bound (a : OCIAgent) (oracle : Except Unit String)
    (user_input : String) (st : SessionState) :
    placeholders Config.PROMPT_TEMPLATE_2 = ["question"] ∧
    isConfigurationErrorOutcome (a.generate_response oracle user_input st) = false := by
  refine ⟨rfl, ?_⟩
  rcases oracle with _ | text <;> rfl

/-- C10: a successful generate_response appends exactly the human question
and the ai answer to the "chat_messages" store and leaves the rendered
"messages" ConversationHistory untouched; the two stores live under the
distinct keys "chat_messages" and "messages", the former being the history
key every constructed agent carries. -/
theorem generate_response_frame (a : OCIAgent) (text user_input : String)
    (st : SessionState) (cfg : ConfigData) :
    (a.generate_response (.ok text) user_input st).map (fun r => r.2.messages) =
      .ok st.messages ∧
    (a.generate_response (.ok text) user_input st).map (fun r => r.2.chat_messages) =
      .ok (st.chat_messages ++ [⟨"human", user_input⟩, ⟨"ai", text⟩]) ∧
    (OCIAgent.init (some cfg)).map OCIAgent.historyKey = .ok "chat_messages" ∧
    (("chat_messages" : String) == "messages") = false := by
  refine ⟨rfl, rfl, rfl, by decide⟩
